import Mathlib

/-!
Verification development for the Urho3D `Terrain` component
(`Engine/Graphics/Terrain.cpp`).

The C++ code is shallowly embedded: each method becomes a pure Lean
function, the mutable `Terrain` object becomes an explicit record that the
setters transform.  Machine `unsigned` arithmetic is modelled over `Nat`
with explicit reduction modulo `2 ^ 32` where the source relies on wrap
around, and the `int` reinterpretation of an `unsigned` value is made
explicit by `toInt32`.  Float arithmetic is idealised as exact arithmetic
over `ℚ` (heights, spacings, coordinates) and `ℝ` (normalised vectors,
which require square roots).
-/

namespace Terrain3D

/-- Constant MIN_PATCH_SIZE from Terrain.cpp. -/
def MIN_PATCH_SIZE : ℕ := 4

/-- Constant MAX_PATCH_SIZE from Terrain.cpp. -/
def MAX_PATCH_SIZE : ℕ := 128

/-- Constant DEFAULT_PATCH_SIZE from Terrain.cpp. -/
def DEFAULT_PATCH_SIZE : ℕ := 16

/-- Constant DEFAULT_LOD_LEVELS from Terrain.cpp. -/
def DEFAULT_LOD_LEVELS : ℕ := 3

/-- Constant MAX_LOD_LEVELS from Terrain.cpp. -/
def MAX_LOD_LEVELS : ℕ := 4

/-- Reinterpretation of a C `unsigned` value (a natural number taken modulo
`2 ^ 32`) as a signed 32-bit `int`, as done by the cast `(int)x` in
`Terrain::GetRawHeight`. -/
def toInt32 (n : ℕ) : ℤ :=
  if n % 2 ^ 32 < 2 ^ 31 then ((n % 2 ^ 32 : ℕ) : ℤ)
  else ((n % 2 ^ 32 : ℕ) : ℤ) - 2 ^ 32

/-- Unsigned 32-bit subtraction of 1, with wraparound: models the C
expression `x - 1` on an `unsigned` operand. -/
def usub1 (n : ℕ) : ℕ := (n + (2 ^ 32 - 1)) % 2 ^ 32

/-- Urho3D `Clamp` over signed integers: returns `min` below the range,
`max` above it, the value itself inside it. -/
def clampI (value lo hi : ℤ) : ℤ :=
  if value < lo then lo
  else if value > hi then hi
  else value

/-- Modelled from the spec: `IsPowerOfTwo` from the Urho3D math headers
(not under src/); the spec calls for "a power of two within [4,128]". -/
def isPowerOfTwo (n : ℕ) : Bool := n != 0 && (n &&& (n - 1)) == 0

/-- Concatenation of the lists produced for each element; the shape of the
nested `for` loops in `Terrain::CreateGeometry` and
`Terrain::UpdatePatchGeometry`. -/
def concatMap {α β : Type} (f : α → List β) : List α → List β
  | [] => []
  | a :: l => f a ++ concatMap f l

/-- Modelled from the spec: the source `Image` resource (Image.h is not
under src/) exposes pixel width, height, channel count, raw bytes and a
compressed-format flag. -/
structure Image where
  width : ℕ
  height : ℕ
  components : ℕ
  compressed : Bool
  data : ℕ → ℕ

/-- Modelled from the spec: the scene-graph node (Node.h is not under
src/) supplies a world transform; `Terrain::GetHeight` uses its inverse,
the vertical world scale and the vertical world position. -/
structure SceneNode where
  invWorldTransform : ℚ × ℚ × ℚ → ℚ × ℚ × ℚ
  worldScaleY : ℚ
  worldPositionY : ℚ

/-- Componentwise sum of two real 3-vectors (Urho3D `Vector3::operator+`). -/
def addV (a b : ℝ × ℝ × ℝ) : ℝ × ℝ × ℝ := (a.1 + b.1, a.2.1 + b.2.1, a.2.2 + b.2.2)

/-- Modelled from the spec: Urho3D `Vector3::Normalized` (Vector3.h is not
under src/) scales a non-zero vector to unit length. -/
noncomputable def normalized3 (v : ℝ × ℝ × ℝ) : ℝ × ℝ × ℝ :=
  letI := Classical.propDecidable
  let len := Real.sqrt (v.1 ^ 2 + v.2.1 ^ 2 + v.2.2 ^ 2)
  if len = 0 then v else (v.1 / len, v.2.1 / len, v.2.2 / len)

/-- One vertex written by `Terrain::UpdatePatchGeometry`: position, normal,
texture coordinate and tangent (xyz plus handedness w). -/
structure Vertex where
  pos : ℚ × ℚ × ℚ
  normal : ℝ × ℝ × ℝ
  texcoord : ℚ × ℚ
  tangentXYZ : ℝ × ℝ × ℝ
  tangentW : ℝ

/-- One `TerrainPatch`: its grid coordinates, the occlusion flags pushed by
the terrain, its vertex buffer contents and the index buffer its geometry
references (content of the shared buffer). -/
structure TerrainPatch where
  px : ℕ
  pz : ℕ
  occluderFlag : Bool
  occludeeFlag : Bool
  vertexData : List Vertex
  indexData : List ℕ

/-- The `Terrain` component state: the fields of Terrain.h that the
embedded methods read or write.  `heightData = none` models a null
`heightData_` pointer, `node = none` a detached component, and
`indexData` the contents of the shared 16-bit index buffer. -/
structure Terrain where
  node : Option SceneNode
  patchSize : ℕ
  spacingX : ℚ
  spacingY : ℚ
  spacingZ : ℚ
  sizeX : ℕ
  sizeZ : ℕ
  patchWorldSizeX : ℚ
  patchWorldSizeZ : ℚ
  patchWorldOriginX : ℚ
  patchWorldOriginZ : ℚ
  patchesX : ℕ
  patchesZ : ℕ
  numLodLevels : ℕ
  heightMap : Option Image
  heightData : Option (List ℚ)
  patches : List TerrainPatch
  indexData : List ℕ
  occluder : Bool
  occludee : Bool
  recreateTerrain : Bool

/-- The `Terrain` constructor (Terrain.cpp lines 54-80): default patch
size 16, spacing (1, 0.25, 1), empty geometry, occludee on. -/
def Terrain.init : Terrain :=
  { node := none
    patchSize := DEFAULT_PATCH_SIZE
    spacingX := 1
    spacingY := 1 / 4
    spacingZ := 1
    sizeX := 0
    sizeZ := 0
    patchWorldSizeX := 0
    patchWorldSizeZ := 0
    patchWorldOriginX := 0
    patchWorldOriginZ := 0
    patchesX := 0
    patchesZ := 0
    numLodLevels := DEFAULT_LOD_LEVELS
    heightMap := none
    heightData := none
    patches := []
    indexData := []
    occluder := false
    occludee := true
    recreateTerrain := false }

/-- `Terrain::GetRawHeight(unsigned x, unsigned z)`: returns 0 when no
height field is built, otherwise clamps `(int)x` and `(int)z` to
`[0, size - 1]` on each axis and reads `heightData_[z * size_.x_ + x]`. -/
def getRawHeight (t : Terrain) (x z : ℕ) : ℚ :=
  match t.heightData with
  | none => 0
  | some hd =>
    let xi := clampI (toInt32 x) 0 ((t.sizeX : ℤ) - 1)
    let zi := clampI (toInt32 z) 0 ((t.sizeZ : ℤ) - 1)
    hd.getD (zi * (t.sizeX : ℤ) + xi).toNat 0

/-- A C call `GetRawHeight(x, z)` with signed integer arguments: the
implicit int-to-unsigned conversion reduces each argument modulo
`2 ^ 32`. -/
def callRawHeight (t : Terrain) (x z : ℤ) : ℚ :=
  getRawHeight t (x % 2 ^ 32).toNat (z % 2 ^ 32).toNat

/-- `Terrain::GetNormal(unsigned x, unsigned z)`: eight neighbor height
deltas relative to the center sample, summed as slope vectors and
normalized.  The `- 1` on an `unsigned` coordinate wraps, hence `usub1`. -/
noncomputable def getNormal (t : Terrain) (x z : ℕ) : ℝ × ℝ × ℝ :=
  let baseHeight := getRawHeight t x z
  let nSlope : ℚ := getRawHeight t x (usub1 z) - baseHeight
  let neSlope : ℚ := getRawHeight t (x + 1) (usub1 z) - baseHeight
  let eSlope : ℚ := getRawHeight t (x + 1) z - baseHeight
  let seSlope : ℚ := getRawHeight t (x + 1) (z + 1) - baseHeight
  let sSlope : ℚ := getRawHeight t x (z + 1) - baseHeight
  let swSlope : ℚ := getRawHeight t (usub1 x) (z + 1) - baseHeight
  let wSlope : ℚ := getRawHeight t (usub1 x) z - baseHeight
  let nwSlope : ℚ := getRawHeight t (usub1 x) (usub1 z) - baseHeight
  normalized3 (addV (addV (addV (addV (addV (addV (addV
    ((0 : ℝ), (1 : ℝ), (nSlope : ℝ))
    ((-neSlope : ℚ), (1 : ℝ), (neSlope : ℝ)))
    ((-eSlope : ℚ), (1 : ℝ), (0 : ℝ)))
    ((-seSlope : ℚ), (1 : ℝ), (-seSlope : ℚ)))
    ((0 : ℝ), (1 : ℝ), (-sSlope : ℚ)))
    ((swSlope : ℝ), (1 : ℝ), (-swSlope : ℚ)))
    ((wSlope : ℝ), (1 : ℝ), (0 : ℝ)))
    ((nwSlope : ℝ), (1 : ℝ), (nwSlope : ℝ)))

/-- The C cast `(unsigned)q` of a float grid coordinate.  For the
nonnegative values on which the cast is defined, truncation toward zero
coincides with the floor. -/
def uintOf (q : ℚ) : ℕ := (⌊q⌋).toNat

/-- `Terrain::GetHeight(const Vector3 and worldPosition)`: 0 when detached;
otherwise inverse-transforms the point, derives fractional grid
coordinates, picks a diagonal triangle of the cell by `xFrac + zFrac >= 1`,
blends three corner raw heights and applies the vertical world scale and
position.  A const method: modelled as a pure function of the state. -/
def getHeight (t : Terrain) (w : ℚ × ℚ × ℚ) : ℚ :=
  match t.node with
  | none => 0
  | some nd =>
    let position := nd.invWorldTransform w
    let xPos := (position.1 - t.patchWorldOriginX) / t.spacingX
    let zPos := (position.2.2 - t.patchWorldOriginZ) / t.spacingZ
    let xFrac := xPos - (⌊xPos⌋ : ℚ)
    let zFrac := zPos - (⌊zPos⌋ : ℚ)
    let h :=
      if xFrac + zFrac ≥ 1 then
        let h1 := getRawHeight t (uintOf xPos + 1) (uintOf zPos + 1)
        let h2 := getRawHeight t (uintOf xPos) (uintOf zPos + 1)
        let h3 := getRawHeight t (uintOf xPos + 1) (uintOf zPos)
        let xf := 1 - xFrac
        let zf := 1 - zFrac
        h1 * (1 - xf - zf) + h2 * xf + h3 * zf
      else
        let h1 := getRawHeight t (uintOf xPos) (uintOf zPos)
        let h2 := getRawHeight t (uintOf xPos + 1) (uintOf zPos)
        let h3 := getRawHeight t (uintOf xPos) (uintOf zPos + 1)
        h1 * (1 - xFrac - zFrac) + h2 * xFrac + h3 * zFrac
    nd.worldScaleY * h + nd.worldPositionY

/-- Restatement of the height query in the words of the spec: transform
into the local frame, take fractional grid coordinates, select a diagonal
triangle by comparing their sum to 1, blend the three relevant corner raw
heights with barycentric weights `(1 - a - b, a, b)`, and return the blend
times the vertical world scale plus the vertical world position. -/
def getHeightSpec (t : Terrain) (w : ℚ × ℚ × ℚ) : ℚ :=
  match t.node with
  | none => 0
  | some nd =>
    let position := nd.invWorldTransform w
    let xPos := (position.1 - t.patchWorldOriginX) / t.spacingX
    let zPos := (position.2.2 - t.patchWorldOriginZ) / t.spacingZ
    let xFrac := xPos - (⌊xPos⌋ : ℚ)
    let zFrac := zPos - (⌊zPos⌋ : ℚ)
    let blended :=
      if xFrac + zFrac ≥ 1 then
        let a := 1 - xFrac
        let b := 1 - zFrac
        (1 - a - b) * getRawHeight t (uintOf xPos + 1) (uintOf zPos + 1) +
          a * getRawHeight t (uintOf xPos) (uintOf zPos + 1) +
          b * getRawHeight t (uintOf xPos + 1) (uintOf zPos)
      else
        let a := xFrac
        let b := zFrac
        (1 - a - b) * getRawHeight t (uintOf xPos) (uintOf zPos) +
          a * getRawHeight t (uintOf xPos + 1) (uintOf zPos) +
          b * getRawHeight t (uintOf xPos) (uintOf zPos + 1)
    nd.worldScaleY * blended + nd.worldPositionY

/-- The LOD level loop of `Terrain::CreateGeometry` (lines 483-489):
halve `lodSize` and count, while it exceeds `MIN_PATCH_SIZE` and fewer
than `MAX_LOD_LEVELS` levels are counted. -/
def lodLoop (lodSize n : ℕ) : ℕ :=
  if h : MIN_PATCH_SIZE < lodSize ∧ n < MAX_LOD_LEVELS then
    lodLoop (lodSize / 2) (n + 1)
  else n
termination_by lodSize
decreasing_by
  exact Nat.div_lt_self (by omega) (by omega)

/-- Number of LOD levels derived from a patch size, starting at 1. -/
def computeNumLodLevels (p : ℕ) : ℕ := lodLoop p 1

/-- Value `patchesX_` computed on rebuild: `(heightMap_->GetWidth() - 1)`
in `int` arithmetic, converted to `unsigned` (wraparound) and divided by
the patch size. -/
def patchesXOf (t : Terrain) (img : Image) : ℕ := usub1 img.width / t.patchSize

/-- Value `patchesZ_` computed on rebuild, from the image height. -/
def patchesZOf (t : Terrain) (img : Image) : ℕ := usub1 img.height / t.patchSize

/-- Value `size_.x_` computed on rebuild: `patchesX_ * patchSize_ + 1`. -/
def sizeXOf (t : Terrain) (img : Image) : ℕ := patchesXOf t img * t.patchSize + 1

/-- Value `size_.y_` computed on rebuild: `patchesZ_ * patchSize_ + 1`. -/
def sizeZOf (t : Terrain) (img : Image) : ℕ := patchesZOf t img * t.patchSize + 1

/-- The height-field copy loop of `Terrain::CreateGeometry` (lines
533-543): entry `z * sizeX + x` holds the first channel of image pixel
`(x, sizeZ - 1 - z)` (row order flipped) scaled by the vertical spacing. -/
def buildHeightData (img : Image) (sizeX sizeZ : ℕ) (spacingY : ℚ) : List ℚ :=
  (List.range (sizeX * sizeZ)).map fun i =>
    let x := i % sizeX
    let z := i / sizeX
    (img.data (img.width * img.components * (sizeZ - 1 - z) + img.components * x) : ℚ) * spacingY

/-- The six 16-bit indices written for one cell `(x, z)` of the shared
index buffer (Terrain.cpp lines 594-600); `unsigned short` truncates
modulo `2 ^ 16`. -/
def cellIndices (p x z : ℕ) : List ℕ :=
  [ (x + (z + 1) * (p + 1)) % 2 ^ 16,
    (x + z * (p + 1) + 1) % 2 ^ 16,
    (x + z * (p + 1)) % 2 ^ 16,
    (x + (z + 1) * (p + 1)) % 2 ^ 16,
    (x + (z + 1) * (p + 1) + 1) % 2 ^ 16,
    (x + z * (p + 1) + 1) % 2 ^ 16 ]

/-- The shared index data built in `Terrain::CreateGeometry` (lines
584-605): for each cell of the `p × p` grid, z outer and x inner, two
triangles with vertex-row stride `p + 1`. -/
def buildIndexData (p : ℕ) : List ℕ :=
  concatMap (fun z => concatMap (fun x => cellIndices p x z) (List.range p)) (List.range p)

/-- Dot product of two real 3-vectors (Urho3D `Vector3::DotProduct`). -/
def dotV (a b : ℝ × ℝ × ℝ) : ℝ := a.1 * b.1 + a.2.1 * b.2.1 + a.2.2 * b.2.2

/-- Scalar multiple of a real 3-vector. -/
def smulV (c : ℝ) (a : ℝ × ℝ × ℝ) : ℝ × ℝ × ℝ := (c * a.1, c * a.2.1, c * a.2.2)

/-- Componentwise difference of two real 3-vectors. -/
def subV (a b : ℝ × ℝ × ℝ) : ℝ × ℝ × ℝ := (a.1 - b.1, a.2.1 - b.2.1, a.2.2 - b.2.2)

/-- Urho3D `Vector3::RIGHT`. -/
def rightV : ℝ × ℝ × ℝ := (1, 0, 0)

/-- One vertex written by the inner loop of `Terrain::UpdatePatchGeometry`
(lines 384-417) for patch `(px, pz)` at patch-local coordinates
`(x1, z1)`. -/
noncomputable def patchVertex (t : Terrain) (px pz x1 z1 : ℕ) : Vertex :=
  let xPos := px * t.patchSize + x1
  let zPos := pz * t.patchSize + z1
  let normal := getNormal t xPos zPos
  { pos := ((x1 : ℚ) * t.spacingX, getRawHeight t xPos zPos, (z1 : ℚ) * t.spacingZ)
    normal := normal
    texcoord := ((xPos : ℚ) / (t.sizeX : ℚ), 1 - (zPos : ℚ) / (t.sizeZ : ℚ))
    tangentXYZ := normalized3 (subV rightV (smulV (dotV normal rightV) normal))
    tangentW := 1 }

/-- The vertex buffer contents produced by `Terrain::UpdatePatchGeometry`
for patch `(px, pz)`: `(patchSize + 1) ^ 2` vertices, z1 outer, x1
inner. -/
noncomputable def patchVertexData (t : Terrain) (px pz : ℕ) : List Vertex :=
  concatMap (fun z1 => (List.range (t.patchSize + 1)).map fun x1 => patchVertex t px pz x1 z1)
    (List.range (t.patchSize + 1))

/-- The terrain state after the layout part of a rebuild with a height
map present (Terrain.cpp lines 482-508 and 531-543 and 582-605): LOD
levels, world patch size and origin, patch grid dimensions, sample
dimensions, the freshly copied height field and the rebuilt shared index
data. -/
def rebuildBase (t : Terrain) (img : Image) : Terrain :=
  { t with
    numLodLevels := computeNumLodLevels t.patchSize
    patchWorldSizeX := t.spacingX * t.patchSize
    patchWorldSizeZ := t.spacingZ * t.patchSize
    patchesX := patchesXOf t img
    patchesZ := patchesZOf t img
    sizeX := sizeXOf t img
    sizeZ := sizeZOf t img
    patchWorldOriginX := -(1 / 2 : ℚ) * (patchesXOf t img : ℚ) * (t.spacingX * t.patchSize)
    patchWorldOriginZ := -(1 / 2 : ℚ) * (patchesZOf t img : ℚ) * (t.spacingZ * t.patchSize)
    heightData := some (buildHeightData img (sizeXOf t img) (sizeZOf t img) t.spacingY)
    indexData := buildIndexData t.patchSize }

/-- The patch list created by a rebuild (Terrain.cpp lines 546-580 and
607-609): z outer, x inner; each patch carries the terrain's occlusion
flags and the vertex data of `UpdatePatchGeometry`, and its geometry
references the shared index buffer. -/
noncomputable def buildPatches (t : Terrain) (img : Image) : List TerrainPatch :=
  concatMap
    (fun z => (List.range (patchesXOf t img)).map fun x =>
      { px := x
        pz := z
        occluderFlag := t.occluder
        occludeeFlag := t.occludee
        vertexData := patchVertexData (rebuildBase t img) x z
        indexData := (rebuildBase t img).indexData })
    (List.range (patchesZOf t img))

/-- Result of `Terrain::CreateGeometry`: the new state paired with whether
the `E_TERRAINCREATED` event was sent. -/
structure CreateResult where
  terrain : Terrain
  sentTerrainCreated : Bool

/-- `Terrain::CreateGeometry` (lines 471-621): clears the dirty flag,
returns at once when detached; otherwise recomputes the layout, rebuilds
or clears the height field and patch list (and, when a height map is
present, the shared index data), and sends `E_TERRAINCREATED` when the
new or the previous patch list is non-empty. -/
noncomputable def createGeometry (t0 : Terrain) : CreateResult :=
  let t := { t0 with recreateTerrain := false }
  match t.node with
  | none => { terrain := t, sentTerrainCreated := false }
  | some _ =>
    let prevNumPatches := t.patches.length
    match t.heightMap with
    | some img =>
      let ps := buildPatches t img
      { terrain := { rebuildBase t img with patches := ps }
        sentTerrainCreated := ps.length != 0 || prevNumPatches != 0 }
    | none =>
      { terrain :=
          { t with
            numLodLevels := computeNumLodLevels t.patchSize
            patchWorldSizeX := t.spacingX * t.patchSize
            patchWorldSizeZ := t.spacingZ * t.patchSize
            patchesX := 0
            patchesZ := 0
            sizeX := 0
            sizeZ := 0
            patchWorldOriginX := 0
            patchWorldOriginZ := 0
            heightData := none
            patches := [] }
        sentTerrainCreated := prevNumPatches != 0 }

/-- `Terrain::SetPatchSize` (lines 137-149): silently rejects a size out
of `[MIN_PATCH_SIZE, MAX_PATCH_SIZE]` or not a power of two; on a changed
valid size stores it and rebuilds. -/
noncomputable def setPatchSize (t : Terrain) (size : ℕ) : Terrain :=
  if size < MIN_PATCH_SIZE ∨ MAX_PATCH_SIZE < size ∨ isPowerOfTwo size = false then t
  else if size ≠ t.patchSize then (createGeometry { t with patchSize := size }).terrain
  else t

/-- `Terrain::SetPatchSizeAttr` (lines 449-459): same validation, but only
marks the terrain for recreation instead of rebuilding now. -/
def setPatchSizeAttr (t : Terrain) (value : ℕ) : Terrain :=
  if value < MIN_PATCH_SIZE ∨ MAX_PATCH_SIZE < value ∨ isPowerOfTwo value = false then t
  else if value ≠ t.patchSize then { t with patchSize := value, recreateTerrain := true }
  else t

/-- `Terrain::SetHeightMapInternal` (lines 655-677): rejects a compressed
image before touching any state; otherwise stores the image and either
rebuilds now or marks the terrain for recreation. -/
noncomputable def setHeightMapInternal (t : Terrain) (image : Option Image) (recreateNow : Bool) :
    Bool × Terrain :=
  let isCompressed := match image with
    | some img => img.compressed
    | none => false
  if isCompressed then (false, t)
  else
    let t1 := { t with heightMap := image }
    if recreateNow then (true, (createGeometry t1).terrain)
    else (true, { t1 with recreateTerrain := true })

/-- `Terrain::SetOccludee` (lines 303-313): the body assigns `occluder_`
(the source text at line 305 is `occluder_ = enable;`) and calls
`SetOccludee(enable)` on every patch. -/
def setOccludee (t : Terrain) (enable : Bool) : Terrain :=
  { t with
    occluder := enable
    patches := t.patches.map fun p => { p with occludeeFlag := enable } }

/-! Helper lemmas about `concatMap`, ranges and machine arithmetic. -/

theorem concatMap_append {α β : Type} (f : α → List β) (l1 l2 : List α) :
    concatMap f (l1 ++ l2) = concatMap f l1 ++ concatMap f l2 := by
  induction l1 with
  | nil => rfl
  | cons a l ih => simp [concatMap, ih]

theorem length_concatMap_const {α β : Type} (f : α → List β) (m : ℕ) (l : List α)
    (h : ∀ a ∈ l, (f a).length = m) : (concatMap f l).length = l.length * m := by
  induction l with
  | nil => simp [concatMap]
  | cons a l ih =>
    have ha := h a (by simp)
    have ih2 := ih fun b hb => h b (by simp [hb])
    simp [concatMap, ha, ih2]
    ring

theorem mem_concatMap {α β : Type} (f : α → List β) (l : List α) (b : β) :
    b ∈ concatMap f l ↔ ∃ a ∈ l, b ∈ f a := by
  induction l with
  | nil => simp [concatMap]
  | cons a l ih => simp [concatMap, ih]

theorem drop_append_len {α : Type} (a b : List α) (j : ℕ) :
    (a ++ b).drop (a.length + j) = b.drop j := by
  induction a with
  | nil => simp
  | cons x a ih => simp [Nat.succ_add, ih]

theorem take_append_len {α : Type} (a b : List α) : (a ++ b).take a.length = a := by
  induction a with
  | nil => simp
  | cons x a ih => simp [ih]

theorem concatMap_range_drop {β : Type} (f : ℕ → List β) (m : ℕ)
    (hm : ∀ j, (f j).length = m) :
    ∀ (n i s : ℕ), i < n →
      (concatMap f (List.range' s n)).drop (m * i) =
        f (s + i) ++ concatMap f (List.range' (s + i + 1) (n - i - 1)) := by
  intro n
  induction n with
  | zero => intro i s hi; omega
  | succ k ih =>
    intro i s hi
    cases i with
    | zero => simp [List.range'_succ, concatMap]
    | succ j =>
      have h1 : m * (j + 1) = (f s).length + m * j := by rw [hm]; ring
      rw [List.range'_succ]
      show (f s ++ concatMap f (List.range' (s + 1) k)).drop (m * (j + 1)) = _
      rw [h1, drop_append_len, ih j (s + 1) (by omega)]
      have h2 : s + 1 + j = s + (j + 1) := by omega
      have h4 : k - j - 1 = k + 1 - (j + 1) - 1 := by omega
      rw [h2, h4]

theorem concatMap_range_slice {β : Type} (f : ℕ → List β) (m : ℕ)
    (hm : ∀ j, (f j).length = m) (n i : ℕ) (hi : i < n) :
    ((concatMap f (List.range n)).drop (m * i)).take m = f i := by
  rw [List.range_eq_range', concatMap_range_drop f m hm n i 0 hi]
  have h1 : m = (f (0 + i)).length := (hm (0 + i)).symm
  rw [h1, take_append_len, Nat.zero_add]

theorem toInt32_int_arg (x : ℤ) (h1 : -2 ^ 31 ≤ x) (h2 : x < 2 ^ 31) :
    toInt32 (x % 2 ^ 32).toNat = x := by
  unfold toInt32
  split <;> omega

theorem usub1_eq (n : ℕ) (h1 : 1 ≤ n) (h2 : n ≤ 2 ^ 32) : usub1 n = n - 1 := by
  unfold usub1
  omega

theorem clampI_mem (v lo hi : ℤ) (h : lo ≤ hi) :
    lo ≤ clampI v lo hi ∧ clampI v lo hi ≤ hi := by
  unfold clampI
  split_ifs <;> omega

theorem clampI_of_mem (v lo hi : ℤ) (h1 : lo ≤ v) (h2 : v ≤ hi) : clampI v lo hi = v := by
  unfold clampI
  split_ifs <;> omega

theorem getRawHeight_congr (t1 t2 : Terrain) (hd : t1.heightData = t2.heightData)
    (hx : t1.sizeX = t2.sizeX) (hz : t1.sizeZ = t2.sizeZ) (x z : ℕ) :
    getRawHeight t1 x z = getRawHeight t2 x z := by
  unfold getRawHeight
  rw [hd, hx, hz]

theorem buildIndexData_length (p : ℕ) : (buildIndexData p).length = p * p * 6 := by
  unfold buildIndexData
  rw [length_concatMap_const _ (p * 6)]
  · simp
    ring
  · intro z hz
    rw [length_concatMap_const _ 6]
    · simp
    · intro x hx
      simp [cellIndices]

theorem buildIndexData_slice (p x z : ℕ) (hx : x < p) (hz : z < p) :
    ((buildIndexData p).drop (6 * (z * p + x))).take 6 = cellIndices p x z := by
  have hinner : ∀ j, (concatMap (fun x => cellIndices p x j) (List.range' 0 p)).length = p * 6 := by
    intro j
    rw [length_concatMap_const _ 6]
    · simp
    · intro a ha
      simp [cellIndices]
  have hcell : ∀ j, (cellIndices p j z).length = 6 := by
    intro j
    simp [cellIndices]
  have harith : 6 * (z * p + x) = p * 6 * z + 6 * x := by ring
  unfold buildIndexData
  rw [harith, ← List.drop_drop, List.range_eq_range',
    concatMap_range_drop _ (p * 6) hinner p z 0 hz]
  simp only [Nat.zero_add]
  rw [List.drop_append_of_le_length (by rw [hinner z]; omega),
    concatMap_range_drop (fun j => cellIndices p j z) 6 hcell p x 0 hx]
  simp only [Nat.zero_add]
  rw [List.append_assoc]
  have hc6 : (6 : ℕ) = (cellIndices p x z).length := by simp [cellIndices]
  rw [hc6, take_append_len]

theorem patchVertexData_length (t : Terrain) (px pz : ℕ) :
    (patchVertexData t px pz).length = (t.patchSize + 1) * (t.patchSize + 1) := by
  unfold patchVertexData
  rw [length_concatMap_const _ (t.patchSize + 1)]
  · simp
  · intro a ha
    simp

theorem buildPatches_length (t : Terrain) (img : Image) :
    (buildPatches t img).length = patchesZOf t img * patchesXOf t img := by
  unfold buildPatches
  rw [length_concatMap_const _ (patchesXOf t img)]
  · simp
  · intro a ha
    simp

theorem getNormal_congr (t1 t2 : Terrain) (hd : t1.heightData = t2.heightData)
    (hx : t1.sizeX = t2.sizeX) (hz : t1.sizeZ = t2.sizeZ) (x z : ℕ) :
    getNormal t1 x z = getNormal t2 x z := by
  have hr : ∀ a b, getRawHeight t1 a b = getRawHeight t2 a b :=
    getRawHeight_congr t1 t2 hd hx hz
  unfold getNormal
  simp only [hr]

theorem patchVertexData_congr (t1 t2 : Terrain)
    (hp : t1.patchSize = t2.patchSize) (hsx : t1.spacingX = t2.spacingX)
    (hsz : t1.spacingZ = t2.spacingZ) (hd : t1.heightData = t2.heightData)
    (hx : t1.sizeX = t2.sizeX) (hz : t1.sizeZ = t2.sizeZ) (px pz : ℕ) :
    patchVertexData t1 px pz = patchVertexData t2 px pz := by
  have hr : ∀ a b, getRawHeight t1 a b = getRawHeight t2 a b :=
    getRawHeight_congr t1 t2 hd hx hz
  have hn : ∀ a b, getNormal t1 a b = getNormal t2 a b :=
    getNormal_congr t1 t2 hd hx hz
  unfold patchVertexData patchVertex
  simp only [hp, hsx, hsz, hx, hz, hr, hn]

theorem rebuildBase_congr_fields (t1 t2 : Terrain) (img : Image)
    (hp : t1.patchSize = t2.patchSize) (hsx : t1.spacingX = t2.spacingX)
    (hsy : t1.spacingY = t2.spacingY) (hsz : t1.spacingZ = t2.spacingZ) :
    (rebuildBase t1 img).patchSize = (rebuildBase t2 img).patchSize ∧
    (rebuildBase t1 img).spacingX = (rebuildBase t2 img).spacingX ∧
    (rebuildBase t1 img).spacingZ = (rebuildBase t2 img).spacingZ ∧
    (rebuildBase t1 img).heightData = (rebuildBase t2 img).heightData ∧
    (rebuildBase t1 img).sizeX = (rebuildBase t2 img).sizeX ∧
    (rebuildBase t1 img).sizeZ = (rebuildBase t2 img).sizeZ ∧
    (rebuildBase t1 img).indexData = (rebuildBase t2 img).indexData := by
  simp [rebuildBase, sizeXOf, sizeZOf, patchesXOf, patchesZOf, hp, hsx, hsy, hsz]

theorem buildPatches_congr (t1 t2 : Terrain) (img : Image)
    (hp : t1.patchSize = t2.patchSize) (hsx : t1.spacingX = t2.spacingX)
    (hsy : t1.spacingY = t2.spacingY) (hsz : t1.spacingZ = t2.spacingZ)
    (ho1 : t1.occluder = t2.occluder) (ho2 : t1.occludee = t2.occludee) :
    buildPatches t1 img = buildPatches t2 img := by
  obtain ⟨e1, e2, e3, e4, e5, e6, e7⟩ := rebuildBase_congr_fields t1 t2 img hp hsx hsy hsz
  have hv : ∀ x z, patchVertexData (rebuildBase t1 img) x z =
      patchVertexData (rebuildBase t2 img) x z := fun x z =>
    patchVertexData_congr _ _ e1 e2 e3 e4 e5 e6 x z
  have h1 : patchesXOf t1 img = patchesXOf t2 img := by
    unfold patchesXOf
    rw [hp]
  have h2 : patchesZOf t1 img = patchesZOf t2 img := by
    unfold patchesZOf
    rw [hp]
  unfold buildPatches
  simp only [h1, h2, ho1, ho2, hv, e7]

theorem createGeometry_detached (t : Terrain) (h : t.node = none) :
    createGeometry t =
      { terrain := { t with recreateTerrain := false }, sentTerrainCreated := false } := by
  unfold createGeometry
  simp [h]

theorem createGeometry_preserves (t : Terrain) :
    (createGeometry t).terrain.node = t.node ∧
    (createGeometry t).terrain.patchSize = t.patchSize ∧
    (createGeometry t).terrain.spacingX = t.spacingX ∧
    (createGeometry t).terrain.spacingY = t.spacingY ∧
    (createGeometry t).terrain.spacingZ = t.spacingZ ∧
    (createGeometry t).terrain.heightMap = t.heightMap ∧
    (createGeometry t).terrain.occluder = t.occluder ∧
    (createGeometry t).terrain.occludee = t.occludee := by
  unfold createGeometry
  cases hn : t.node <;> cases hm : t.heightMap <;> simp [hn, hm, rebuildBase]

theorem createGeometry_heightData (t : Terrain) (nd : SceneNode) (img : Image)
    (hn : t.node = some nd) (hm : t.heightMap = some img) :
    (createGeometry t).terrain.heightData =
      some (buildHeightData img (sizeXOf t img) (sizeZOf t img) t.spacingY) := by
  unfold createGeometry
  simp [hn, hm, rebuildBase, sizeXOf, sizeZOf, patchesXOf, patchesZOf]

theorem createGeometry_indexData (t : Terrain) (nd : SceneNode) (img : Image)
    (hn : t.node = some nd) (hm : t.heightMap = some img) :
    (createGeometry t).terrain.indexData = buildIndexData t.patchSize := by
  unfold createGeometry
  simp [hn, hm, rebuildBase]

theorem createGeometry_patches (t : Terrain) (nd : SceneNode) (img : Image)
    (hn : t.node = some nd) (hm : t.heightMap = some img) :
    (createGeometry t).terrain.patches = buildPatches t img := by
  unfold createGeometry
  simp only [hn, hm]
  show buildPatches { t with recreateTerrain := false } img = buildPatches t img
  exact buildPatches_congr _ _ img rfl rfl rfl rfl rfl rfl

theorem createGeometry_sent (t : Terrain) (nd : SceneNode) (img : Image)
    (hn : t.node = some nd) (hm : t.heightMap = some img) :
    (createGeometry t).sentTerrainCreated =
      ((buildPatches t img).length != 0 || t.patches.length != 0) := by
  unfold createGeometry
  simp only [hn, hm]
  show ((buildPatches { t with recreateTerrain := false } img).length != 0 || _) = _
  rw [buildPatches_congr { t with recreateTerrain := false } t img rfl rfl rfl rfl rfl rfl]

theorem createGeometry_patches_nomap (t : Terrain) (nd : SceneNode)
    (hn : t.node = some nd) (hm : t.heightMap = none) :
    (createGeometry t).terrain.patches = [] := by
  unfold createGeometry
  simp [hn, hm]

theorem createGeometry_sent_nomap (t : Terrain) (nd : SceneNode)
    (hn : t.node = some nd) (hm : t.heightMap = none) :
    (createGeometry t).sentTerrainCreated = (t.patches.length != 0) := by
  unfold createGeometry
  simp [hn, hm]

/-! Concrete fixtures used by witnesses and counterexamples. -/

/-- A concrete scene node: identity transform, unit vertical scale, zero
vertical position. -/
def nd0 : SceneNode := { invWorldTransform := id, worldScaleY := 1, worldPositionY := 0 }

/-- A concrete 5 by 5 one-channel uncompressed image. -/
def img5 : Image :=
  { width := 5, height := 5, components := 1, compressed := false, data := fun _ => 0 }

/-- A concrete compressed image. -/
def imgC : Image :=
  { width := 4, height := 4, components := 1, compressed := true, data := fun _ => 0 }

/-- An attached terrain with patch size 4 and the 5 by 5 height map. -/
def T54 : Terrain :=
  { Terrain.init with node := some nd0, heightMap := some img5, patchSize := 4 }

/-- A terrain with a built 2 by 2 height field. -/
def Traw : Terrain :=
  { Terrain.init with heightData := some [1, 2, 3, 4], sizeX := 2, sizeZ := 2 }

/-- The terrain `Traw` with an unrelated flag toggled. -/
def TrawB : Terrain := { Traw with occluder := true }

/-- Height delta of neighbor sample `(nx, nz)` relative to the center
sample `(x, z)`, as the spec describes the slope construction. -/
def heightDelta (t : Terrain) (x z nx nz : ℕ) : ℚ := getRawHeight t nx nz - getRawHeight t x z

/-- C1: for every world position, a detached terrain returns height 0;
an attached one inverse-transforms the point into the local frame, takes
fractional grid coordinates, picks one of the two diagonal triangles of
the cell by comparing the sum of the fractional parts to 1, blends the
three relevant corner raw heights with barycentric weights
`(1 - a - b, a, b)`, and returns the blend times the vertical world scale
plus the vertical world position.  Both sides are pure functions of the
state, so no state is mutated. -/
theorem getHeight_matches_spec (t : Terrain) (w : ℚ × ℚ × ℚ) :
    getHeight t w = getHeightSpec t w := by
  unfold getHeight getHeightSpec
  cases t.node with
  | none => rfl
  | some nd =>
    dsimp only
    split
    · ring
    · ring

/-- C4: a raw-height lookup returns 0 when no height field is built, and
otherwise clamps each integer coordinate independently to
`[0, dimension - 1]` before the lookup, so calling it at a coordinate
outside the grid equals calling it at the clamped coordinate. -/
theorem getRawHeight_clamps (t : Terrain) (x z : ℤ) :
    (t.heightData = none → callRawHeight t x z = 0) ∧
    (-2 ^ 31 ≤ x → x < 2 ^ 31 → -2 ^ 31 ≤ z → z < 2 ^ 31 →
      1 ≤ t.sizeX → t.sizeX ≤ 2 ^ 31 → 1 ≤ t.sizeZ → t.sizeZ ≤ 2 ^ 31 →
      callRawHeight t x z =
        callRawHeight t (clampI x 0 ((t.sizeX : ℤ) - 1)) (clampI z 0 ((t.sizeZ : ℤ) - 1))) := by
  constructor
  · intro h
    unfold callRawHeight getRawHeight
    rw [h]
  · intro hx1 hx2 hz1 hz2 hsx1 hsx2 hsz1 hsz2
    obtain ⟨hcx1, hcx2⟩ := clampI_mem x 0 ((t.sizeX : ℤ) - 1) (by omega)
    obtain ⟨hcz1, hcz2⟩ := clampI_mem z 0 ((t.sizeZ : ℤ) - 1) (by omega)
    have ex : toInt32 (x % 2 ^ 32).toNat = x := toInt32_int_arg x hx1 hx2
    have ez : toInt32 (z % 2 ^ 32).toNat = z := toInt32_int_arg z hz1 hz2
    have ecx : toInt32 (clampI x 0 ((t.sizeX : ℤ) - 1) % 2 ^ 32).toNat =
        clampI x 0 ((t.sizeX : ℤ) - 1) := toInt32_int_arg _ (by omega) (by omega)
    have ecz : toInt32 (clampI z 0 ((t.sizeZ : ℤ) - 1) % 2 ^ 32).toNat =
        clampI z 0 ((t.sizeZ : ℤ) - 1) := toInt32_int_arg _ (by omega) (by omega)
    unfold callRawHeight getRawHeight
    cases hd : t.heightData with
    | none => rfl
    | some l =>
      rw [ex, ez, ecx, ecz, clampI_of_mem _ _ _ hcx1 hcx2, clampI_of_mem _ _ _ hcz1 hcz2]

/-- C4 witness: on a concrete 2 by 2 height field, the out-of-range call
at x = -5 equals the call at the clamped coordinates. -/
theorem getRawHeight_clamps_witness :
    callRawHeight Traw (-5) 0 =
      callRawHeight Traw (clampI (-5) 0 ((Traw.sizeX : ℤ) - 1))
        (clampI 0 0 ((Traw.sizeZ : ℤ) - 1)) :=
  (getRawHeight_clamps Traw (-5) 0).2 (by decide) (by decide) (by decide) (by decide)
    (by decide) (by decide) (by decide) (by decide)

/-- C5: the normal at a grid coordinate is the normalization of the sum
of eight slope vectors, one per compass direction (N, NE, E, SE, S, SW,
W, NW), each formed from that neighbor's height delta relative to the
center sample with Y component 1; and it is a deterministic function of
the height field (samples and dimensions) alone. -/
theorem getNormal_eight_slopes (t : Terrain) (x z : ℕ) :
    (getNormal t x z = normalized3
      (addV ((0 : ℝ), 1, ((heightDelta t x z x (usub1 z) : ℚ) : ℝ))
      (addV ((-(heightDelta t x z (x + 1) (usub1 z)) : ℚ), 1,
          ((heightDelta t x z (x + 1) (usub1 z) : ℚ) : ℝ))
      (addV ((-(heightDelta t x z (x + 1) z) : ℚ), 1, (0 : ℝ))
      (addV ((-(heightDelta t x z (x + 1) (z + 1)) : ℚ), 1,
          ((-(heightDelta t x z (x + 1) (z + 1)) : ℚ) : ℝ))
      (addV ((0 : ℝ), 1, ((-(heightDelta t x z x (z + 1)) : ℚ) : ℝ))
      (addV (((heightDelta t x z (usub1 x) (z + 1) : ℚ) : ℝ), 1,
          ((-(heightDelta t x z (usub1 x) (z + 1)) : ℚ) : ℝ))
      (addV (((heightDelta t x z (usub1 x) z : ℚ) : ℝ), 1, (0 : ℝ))
        (((heightDelta t x z (usub1 x) (usub1 z) : ℚ) : ℝ), 1,
          ((heightDelta t x z (usub1 x) (usub1 z) : ℚ) : ℝ)))))))))) ∧
    (∀ u : Terrain, u.heightData = t.heightData → u.sizeX = t.sizeX → u.sizeZ = t.sizeZ →
      getNormal u x z = getNormal t x z) := by
  constructor
  · unfold getNormal heightDelta
    dsimp only
    congr 1
    simp only [addV, Prod.mk.injEq]
    refine ⟨by push_cast; ring, by ring, by push_cast; ring⟩
  · intro u h1 h2 h3
    exact getNormal_congr u t h1 h2 h3 x z

/-- C5 witness: the determinism conjunct applied to two concrete terrains
sharing the same height field. -/
theorem getNormal_eight_slopes_witness : getNormal TrawB 0 0 = getNormal Traw 0 0 :=
  (getNormal_eight_slopes Traw 0 0).2 TrawB rfl rfl rfl

/-- C7: a requested patch size below 4, above 128 or not a power of two
is silently rejected by both patch-size setters: the whole terrain state,
patches and geometry included, is returned unchanged. -/
theorem setPatchSize_invalid_noop (t : Terrain) (s : ℕ)
    (h : s < MIN_PATCH_SIZE ∨ MAX_PATCH_SIZE < s ∨ isPowerOfTwo s = false) :
    setPatchSize t s = t ∧ setPatchSizeAttr t s = t := by
  unfold setPatchSize setPatchSizeAttr
  rw [if_pos h, if_pos h]
  exact ⟨rfl, rfl⟩

/-- C7 witness: patch size 5 (not a power of two) and 200 (out of range)
leave a concrete terrain unchanged. -/
theorem setPatchSize_invalid_noop_witness :
    (setPatchSize T54 5 = T54 ∧ setPatchSizeAttr T54 5 = T54) ∧
    (setPatchSize T54 200 = T54 ∧ setPatchSizeAttr T54 200 = T54) :=
  ⟨setPatchSize_invalid_noop T54 5 (by right; right; decide),
   setPatchSize_invalid_noop T54 200 (by right; left; decide)⟩

/-- A concrete terrain with both occlusion flags set and one live patch,
exhibiting the `SetOccludee` slip. -/
def T10 : Terrain :=
  { Terrain.init with
    occluder := true
    occludee := true
    patches := [{ px := 0, pz := 0, occluderFlag := true, occludeeFlag := true,
                  vertexData := [], indexData := [] }] }

/-- C10: the claim says `SetOccludee(e)` stores `e` in the occludee flag
and leaves the occluder flag alone, but the body assigns `occluder_`
(Terrain.cpp line 305): on a terrain with both flags true,
`SetOccludee(false)` clears the stored occluder flag and leaves the
stored occludee flag true, while each live patch's occludee flag is set
as the claim says. -/
theorem setOccludee_assigns_occluder :
    T10.occluder = true ∧ T10.occludee = true ∧
    (setOccludee T10 false).occluder = false ∧
    (setOccludee T10 false).occludee = true ∧
    (setOccludee T10 false).patches.map TerrainPatch.occludeeFlag = [false] :=
  ⟨rfl, rfl, rfl, rfl, rfl⟩

theorem createGeometry_heightData_nomap (t : Terrain) (nd : SceneNode)
    (hn : t.node = some nd) (hm : t.heightMap = none) :
    (createGeometry t).terrain.heightData = none := by
  unfold createGeometry
  simp [hn, hm]

theorem createGeometry_indexData_nomap (t : Terrain) (nd : SceneNode)
    (hn : t.node = some nd) (hm : t.heightMap = none) :
    (createGeometry t).terrain.indexData = t.indexData := by
  unfold createGeometry
  simp [hn, hm]

theorem createGeometry_sizes (t : Terrain) (nd : SceneNode) (img : Image)
    (hn : t.node = some nd) (hm : t.heightMap = some img) :
    (createGeometry t).terrain.sizeX = sizeXOf t img ∧
    (createGeometry t).terrain.sizeZ = sizeZOf t img ∧
    (createGeometry t).terrain.patchesX = patchesXOf t img ∧
    (createGeometry t).terrain.patchesZ = patchesZOf t img := by
  unfold createGeometry
  simp [hn, hm, rebuildBase, sizeXOf, sizeZOf, patchesXOf, patchesZOf]

theorem buildPatches_vertex_length (t : Terrain) (img : Image) (pa : TerrainPatch)
    (h : pa ∈ buildPatches t img) :
    pa.vertexData.length = (t.patchSize + 1) * (t.patchSize + 1) := by
  unfold buildPatches at h
  rw [mem_concatMap] at h
  obtain ⟨z, hz, hmem⟩ := h
  rw [List.mem_map] at hmem
  obtain ⟨x, hx, rfl⟩ := hmem
  show (patchVertexData (rebuildBase t img) x z).length = _
  rw [patchVertexData_length]
  simp [rebuildBase]

theorem buildPatches_index_shared (t : Terrain) (img : Image) (pa : TerrainPatch)
    (h : pa ∈ buildPatches t img) :
    pa.indexData = buildIndexData t.patchSize := by
  unfold buildPatches at h
  rw [mem_concatMap] at h
  obtain ⟨z, hz, hmem⟩ := h
  rw [List.mem_map] at hmem
  obtain ⟨x, hx, rfl⟩ := hmem
  show (rebuildBase t img).indexData = _
  simp [rebuildBase]

/-- C2: a rebuild on an attached terrain with a valid patch size `p` and a
W by H height map produces exactly `(W - 1) / p * ((H - 1) / p)` patches,
stores grid dimensions `patchesX * p + 1` by `patchesZ * p + 1` samples,
these patch-grid dimensions being exactly the floors `(W - 1) / p` and
`(H - 1) / p`, and every patch's vertex buffer holds exactly
`(p + 1) ^ 2` vertices. -/
theorem createGeometry_patch_counts (t : Terrain) (nd : SceneNode) (img : Image)
    (hn : t.node = some nd) (hm : t.heightMap = some img)
    (_hp4 : MIN_PATCH_SIZE ≤ t.patchSize) (_hp128 : t.patchSize ≤ MAX_PATCH_SIZE)
    (_hpow : isPowerOfTwo t.patchSize = true)
    (hw1 : 1 ≤ img.width) (hw2 : img.width ≤ 2 ^ 31)
    (hh1 : 1 ≤ img.height) (hh2 : img.height ≤ 2 ^ 31) :
    (createGeometry t).terrain.patches.length =
      (img.width - 1) / t.patchSize * ((img.height - 1) / t.patchSize) ∧
    (createGeometry t).terrain.sizeX = (createGeometry t).terrain.patchesX * t.patchSize + 1 ∧
    (createGeometry t).terrain.sizeZ = (createGeometry t).terrain.patchesZ * t.patchSize + 1 ∧
    (createGeometry t).terrain.patchesX = (img.width - 1) / t.patchSize ∧
    (createGeometry t).terrain.patchesZ = (img.height - 1) / t.patchSize ∧
    (∀ pa ∈ (createGeometry t).terrain.patches,
      pa.vertexData.length = (t.patchSize + 1) * (t.patchSize + 1)) := by
  obtain ⟨e1, e2, e3, e4⟩ := createGeometry_sizes t nd img hn hm
  have hw : patchesXOf t img = (img.width - 1) / t.patchSize := by
    unfold patchesXOf
    rw [usub1_eq img.width hw1 (by omega)]
  have hh : patchesZOf t img = (img.height - 1) / t.patchSize := by
    unfold patchesZOf
    rw [usub1_eq img.height hh1 (by omega)]
  refine ⟨?_, ?_, ?_, ?_, ?_, ?_⟩
  · rw [createGeometry_patches t nd img hn hm, buildPatches_length, hw, hh]
    ring
  · rw [e1, e3]
    rfl
  · rw [e2, e4]
    rfl
  · rw [e3, hw]
  · rw [e4, hh]
  · intro pa hpa
    rw [createGeometry_patches t nd img hn hm] at hpa
    exact buildPatches_vertex_length t img pa hpa

/-- C2 witness: patch size 4 on a 5 by 5 height map gives one patch, a
5 by 5 sample grid and 25 vertices in the patch. -/
theorem createGeometry_patch_counts_witness :
    (createGeometry T54).terrain.patches.length =
      (img5.width - 1) / T54.patchSize * ((img5.height - 1) / T54.patchSize) ∧
    (createGeometry T54).terrain.sizeX =
      (createGeometry T54).terrain.patchesX * T54.patchSize + 1 ∧
    (createGeometry T54).terrain.sizeZ =
      (createGeometry T54).terrain.patchesZ * T54.patchSize + 1 ∧
    (createGeometry T54).terrain.patchesX = (img5.width - 1) / T54.patchSize ∧
    (createGeometry T54).terrain.patchesZ = (img5.height - 1) / T54.patchSize ∧
    (∀ pa ∈ (createGeometry T54).terrain.patches,
      pa.vertexData.length = (T54.patchSize + 1) * (T54.patchSize + 1)) :=
  createGeometry_patch_counts T54 nd0 img5 rfl rfl (by decide) (by decide) (by decide)
    (by decide) (by decide) (by decide) (by decide)

/-- C3: after a rebuild with a height map present, the shared index
buffer holds exactly `patchSize ^ 2 * 6` 16-bit indices; the six entries
for cell `(x, z)` are the two triangles with vertex-row stride
`patchSize + 1` in the order written by the source; every patch's
geometry references exactly this sequence; and the sequence depends on
the patch size alone, so a rebuild that keeps the patch size yields the
identical sequence. -/
theorem createGeometry_index_topology (t : Terrain) (nd : SceneNode) (img : Image)
    (hn : t.node = some nd) (hm : t.heightMap = some img)
    (hp128 : t.patchSize ≤ MAX_PATCH_SIZE) :
    (createGeometry t).terrain.indexData.length = t.patchSize * t.patchSize * 6 ∧
    (∀ x z, x < t.patchSize → z < t.patchSize →
      ((createGeometry t).terrain.indexData.drop (6 * (z * t.patchSize + x))).take 6 =
        [x + (z + 1) * (t.patchSize + 1),
         x + z * (t.patchSize + 1) + 1,
         x + z * (t.patchSize + 1),
         x + (z + 1) * (t.patchSize + 1),
         x + (z + 1) * (t.patchSize + 1) + 1,
         x + z * (t.patchSize + 1) + 1]) ∧
    (∀ pa ∈ (createGeometry t).terrain.patches,
      pa.indexData = (createGeometry t).terrain.indexData) ∧
    (∀ (u : Terrain) (nd2 : SceneNode) (img2 : Image), u.node = some nd2 →
      u.heightMap = some img2 → u.patchSize = t.patchSize →
      (createGeometry u).terrain.indexData = (createGeometry t).terrain.indexData) := by
  have hidx := createGeometry_indexData t nd img hn hm
  have hp : t.patchSize ≤ 128 := hp128
  refine ⟨?_, ?_, ?_, ?_⟩
  · rw [hidx, buildIndexData_length]
  · intro x z hx hz
    rw [hidx, buildIndexData_slice t.patchSize x z hx hz]
    have hb1 : (z + 1) * (t.patchSize + 1) ≤ 128 * 129 :=
      Nat.mul_le_mul (by omega) (by omega)
    have hb2 : z * (t.patchSize + 1) ≤ 128 * 129 :=
      Nat.mul_le_mul (by omega) (by omega)
    unfold cellIndices
    rw [Nat.mod_eq_of_lt (by omega), Nat.mod_eq_of_lt (by omega),
      Nat.mod_eq_of_lt (by omega), Nat.mod_eq_of_lt (by omega)]
  · intro pa hpa
    rw [createGeometry_patches t nd img hn hm] at hpa
    rw [hidx]
    exact buildPatches_index_shared t img pa hpa
  · intro u nd2 img2 hun hum hup
    rw [createGeometry_indexData u nd2 img2 hun hum, hidx, hup]

/-- C3 witness: the index topology statement at the concrete terrain with
patch size 4 and the 5 by 5 height map, instantiated at cell (1, 2). -/
theorem createGeometry_index_topology_witness :
    (createGeometry T54).terrain.indexData.length = T54.patchSize * T54.patchSize * 6 ∧
    ((createGeometry T54).terrain.indexData.drop (6 * (2 * T54.patchSize + 1))).take 6 =
      [1 + 3 * (T54.patchSize + 1),
       1 + 2 * (T54.patchSize + 1) + 1,
       1 + 2 * (T54.patchSize + 1),
       1 + 3 * (T54.patchSize + 1),
       1 + 3 * (T54.patchSize + 1) + 1,
       1 + 2 * (T54.patchSize + 1) + 1] :=
  ⟨(createGeometry_index_topology T54 nd0 img5 rfl rfl (by decide)).1,
   (createGeometry_index_topology T54 nd0 img5 rfl rfl (by decide)).2.1 1 2
     (by decide) (by decide)⟩

/-- C6: setting a height map fails, returning false, exactly when an
image is given and it is compressed; on failure the whole terrain state,
height map, height field and patches included, is unchanged and no
rebuild or recreation is triggered; on success the image is stored. -/
theorem setHeightMap_compressed_rejected (t : Terrain) (image : Option Image) (rn : Bool) :
    ((setHeightMapInternal t image rn).1 = false ↔
      ∃ img, image = some img ∧ img.compressed = true) ∧
    ((setHeightMapInternal t image rn).1 = false → (setHeightMapInternal t image rn).2 = t) ∧
    ((setHeightMapInternal t image rn).1 = true →
      (setHeightMapInternal t image rn).2.heightMap = image) := by
  cases image with
  | none =>
    unfold setHeightMapInternal
    cases rn with
    | false => simp
    | true =>
      simp only [if_neg (by simp : ¬False), Bool.false_eq_true, false_iff]
      refine ⟨by simp, by simp, ?_⟩
      intro h
      exact ((createGeometry_preserves { t with heightMap := none }).2.2.2.2.2.1).trans rfl
  | some img =>
    cases hc : img.compressed with
    | true =>
      unfold setHeightMapInternal
      simp [hc]
    | false =>
      unfold setHeightMapInternal
      cases rn with
      | false => simp [hc]
      | true =>
        simp only [hc, if_neg (by simp : ¬(false = true))]
        refine ⟨by simp [hc], by simp, ?_⟩
        intro h
        exact ((createGeometry_preserves { t with heightMap := some img }).2.2.2.2.2.1).trans rfl

/-- C6 witness: a concrete compressed image is rejected and leaves the
terrain untouched, and a concrete uncompressed image is stored. -/
theorem setHeightMap_compressed_rejected_witness :
    (setHeightMapInternal T54 (some imgC) true).1 = false ∧
    (setHeightMapInternal T54 (some imgC) true).2 = T54 ∧
    (setHeightMapInternal Terrain.init (some img5) true).2.heightMap = some img5 :=
  ⟨(setHeightMap_compressed_rejected T54 (some imgC) true).1.mpr ⟨imgC, rfl, rfl⟩,
   (setHeightMap_compressed_rejected T54 (some imgC) true).2.1
     ((setHeightMap_compressed_rejected T54 (some imgC) true).1.mpr ⟨imgC, rfl, rfl⟩),
   (setHeightMap_compressed_rejected Terrain.init (some img5) true).2.2 (by rfl)⟩

/-- C8 counterexample: on the concrete attached terrain with a height
map, the first rebuild produces a non-zero patch count and the second
rebuild keeps it non-zero, yet the second rebuild does send the
terrain-created event, contradicting the claim that a rebuild keeping a
non-zero patch count non-zero emits no notification. -/
theorem createGeometry_event_counterexample :
    (createGeometry T54).terrain.patches.length ≠ 0 ∧
    (createGeometry (createGeometry T54).terrain).terrain.patches.length ≠ 0 ∧
    (createGeometry (createGeometry T54).terrain).sentTerrainCreated = true := by
  obtain ⟨en, ep, _, _, _, ehm, _, _⟩ := createGeometry_preserves T54
  have hn1 : (createGeometry T54).terrain.node = some nd0 := by rw [en]; rfl
  have hm1 : (createGeometry T54).terrain.heightMap = some img5 := by rw [ehm]; rfl
  have hlen1 : (createGeometry T54).terrain.patches.length = 1 := by
    rw [createGeometry_patches T54 nd0 img5 rfl rfl, buildPatches_length]
    decide
  have hlen2 : (createGeometry (createGeometry T54).terrain).terrain.patches.length = 1 := by
    rw [createGeometry_patches _ nd0 img5 hn1 hm1, buildPatches_length]
    unfold patchesXOf patchesZOf
    rw [ep]
    decide
  refine ⟨by omega, by omega, ?_⟩
  rw [createGeometry_sent _ nd0 img5 hn1 hm1, buildPatches_length]
  unfold patchesXOf patchesZOf
  rw [ep]
  decide

/-- C8 amended: a rebuild on an attached terrain emits the
terrain-created notification iff the patch count before or after the
rebuild is non-zero; only a rebuild from zero patches to zero patches
(or on a detached terrain) emits nothing. -/
theorem createGeometry_event_iff (t : Terrain) (nd : SceneNode) (hn : t.node = some nd) :
    (createGeometry t).sentTerrainCreated = true ↔
      ((createGeometry t).terrain.patches.length ≠ 0 ∨ t.patches.length ≠ 0) := by
  cases hm : t.heightMap with
  | none =>
    rw [createGeometry_sent_nomap t nd hn hm, createGeometry_patches_nomap t nd hn hm]
    simp
  | some img =>
    rw [createGeometry_sent t nd img hn hm, createGeometry_patches t nd img hn hm]
    simp

/-- C8 witness: the amended statement applied at the concrete attached
terrain. -/
theorem createGeometry_event_iff_witness :
    (createGeometry T54).sentTerrainCreated = true ↔
      ((createGeometry T54).terrain.patches.length ≠ 0 ∨ T54.patches.length ≠ 0) :=
  createGeometry_event_iff T54 nd0 rfl

/-- C9: running the rebuild twice in a row with the same configuration
and source image produces identical height-field data, identical patches
(hence identical vertex data) and identical index data as running it
once. -/
theorem createGeometry_idempotent (t : Terrain) :
    (createGeometry (createGeometry t).terrain).terrain.heightData =
      (createGeometry t).terrain.heightData ∧
    (createGeometry (createGeometry t).terrain).terrain.patches =
      (createGeometry t).terrain.patches ∧
    (createGeometry (createGeometry t).terrain).terrain.indexData =
      (createGeometry t).terrain.indexData := by
  obtain ⟨en, ep, esx, esy, esz, ehm, eo1, eo2⟩ := createGeometry_preserves t
  cases hn : t.node with
  | none =>
    have h2 : (createGeometry t).terrain.node = none := by rw [en, hn]
    rw [createGeometry_detached _ h2]
    exact ⟨rfl, rfl, rfl⟩
  | some nd =>
    have hn2 : (createGeometry t).terrain.node = some nd := by rw [en, hn]
    cases hm : t.heightMap with
    | none =>
      have hm2 : (createGeometry t).terrain.heightMap = none := by rw [ehm, hm]
      refine ⟨?_, ?_, ?_⟩
      · rw [createGeometry_heightData_nomap _ nd hn2 hm2,
          createGeometry_heightData_nomap t nd hn hm]
      · rw [createGeometry_patches_nomap _ nd hn2 hm2,
          createGeometry_patches_nomap t nd hn hm]
      · rw [createGeometry_indexData_nomap _ nd hn2 hm2]
    | some img =>
      have hm2 : (createGeometry t).terrain.heightMap = some img := by rw [ehm, hm]
      refine ⟨?_, ?_, ?_⟩
      · rw [createGeometry_heightData _ nd img hn2 hm2, createGeometry_heightData t nd img hn hm]
        unfold sizeXOf sizeZOf patchesXOf patchesZOf
        rw [ep, esy]
      · rw [createGeometry_patches _ nd img hn2 hm2, createGeometry_patches t nd img hn hm]
        exact buildPatches_congr _ _ img ep esx esy esz eo1 eo2
      · rw [createGeometry_indexData _ nd img hn2 hm2, createGeometry_indexData t nd img hn hm,
          ep]

end Terrain3D
